import Mathlib

/-!
Verification of the wifi HAL lifecycle coordinator
(`wifi_hal_legacy/wifi_hal_service.cpp`), the failure-reason translator
(`wifi_hal_legacy/failure_reason_util.cpp`), and the interface flag utility
(`libwifi_system/interface_utils.cpp`), as shallow embeddings in Lean 4.
-/

namespace WifiHal

/-- Caller-facing failure categories (`V1_0::CommandFailureReason`); only the
four constructors actually produced by the translator are modelled. -/
inductive CommandFailureReason where
  | UNKNOWN
  | NOT_AVAILABLE
  | NOT_SUPPORTED
  | INVALID_ARGS
  deriving DecidableEq, Repr

/-- `V1_0::FailureReason`: an immutable pair of category and description. -/
structure FailureReason where
  reason : CommandFailureReason
  description : String
  deriving DecidableEq, Repr

/-- `CreateFailureReason` from `failure_reason_util.cpp`. -/
def CreateFailureReason (reason : CommandFailureReason) (description : String) :
    FailureReason :=
  ⟨reason, description⟩

/-- `wifi_error` values from the legacy HAL header (a C enum; modelled as `Int`
because the `switch` in the translator has a `default` arm for every other
integer value). -/
def WIFI_SUCCESS : Int := 0

def WIFI_ERROR_NONE : Int := 0

def WIFI_ERROR_UNKNOWN : Int := -1

def WIFI_ERROR_UNINITIALIZED : Int := -2

def WIFI_ERROR_NOT_SUPPORTED : Int := -3

def WIFI_ERROR_NOT_AVAILABLE : Int := -4

def WIFI_ERROR_INVALID_ARGS : Int := -5

def WIFI_ERROR_INVALID_REQUEST_ID : Int := -6

def WIFI_ERROR_TIMED_OUT : Int := -7

def WIFI_ERROR_TOO_MANY_REQUESTS : Int := -8

def WIFI_ERROR_OUT_OF_MEMORY : Int := -9

/-- `CreateFailureReasonLegacyError` from `failure_reason_util.cpp`: the
`switch` over the engine error code, arms in source order; the final branch is
the fallthrough group `WIFI_ERROR_NONE`, `WIFI_ERROR_UNKNOWN` and `default`. -/
def CreateFailureReasonLegacyError (error : Int) (desc : String) : FailureReason :=
  if error = WIFI_ERROR_UNINITIALIZED ∨ error = WIFI_ERROR_NOT_AVAILABLE then
    CreateFailureReason CommandFailureReason.NOT_AVAILABLE desc
  else if error = WIFI_ERROR_NOT_SUPPORTED then
    CreateFailureReason CommandFailureReason.NOT_SUPPORTED desc
  else if error = WIFI_ERROR_INVALID_ARGS ∨ error = WIFI_ERROR_INVALID_REQUEST_ID then
    CreateFailureReason CommandFailureReason.INVALID_ARGS desc
  else if error = WIFI_ERROR_TIMED_OUT then
    CreateFailureReason CommandFailureReason.UNKNOWN (desc ++ ", timed out")
  else if error = WIFI_ERROR_TOO_MANY_REQUESTS then
    CreateFailureReason CommandFailureReason.UNKNOWN (desc ++ ", too many requests")
  else if error = WIFI_ERROR_OUT_OF_MEMORY then
    CreateFailureReason CommandFailureReason.UNKNOWN (desc ++ ", out of memory")
  else
    CreateFailureReason CommandFailureReason.UNKNOWN "unknown"

/-- The failure-translation table of the specification, row by row, written
independently of the source function for comparison against it. -/
def failureTableSpec (error : Int) (desc : String) : FailureReason :=
  if error = WIFI_ERROR_UNINITIALIZED ∨ error = WIFI_ERROR_NOT_AVAILABLE then
    ⟨CommandFailureReason.NOT_AVAILABLE, desc⟩
  else if error = WIFI_ERROR_NOT_SUPPORTED then
    ⟨CommandFailureReason.NOT_SUPPORTED, desc⟩
  else if error = WIFI_ERROR_INVALID_ARGS ∨ error = WIFI_ERROR_INVALID_REQUEST_ID then
    ⟨CommandFailureReason.INVALID_ARGS, desc⟩
  else if error = WIFI_ERROR_TIMED_OUT then
    ⟨CommandFailureReason.UNKNOWN, desc ++ ", timed out"⟩
  else if error = WIFI_ERROR_TOO_MANY_REQUESTS then
    ⟨CommandFailureReason.UNKNOWN, desc ++ ", too many requests"⟩
  else if error = WIFI_ERROR_OUT_OF_MEMORY then
    ⟨CommandFailureReason.UNKNOWN, desc ++ ", out of memory"⟩
  else
    ⟨CommandFailureReason.UNKNOWN, "unknown"⟩

/-- `WifiHalService::State`: the tri-state lifecycle machine. -/
inductive State where
  | STOPPED
  | STARTED
  | STOPPING
  deriving DecidableEq, Repr

/-- Lifecycle events broadcast to the registered callbacks
(`onStart`, `onStartFailure`, `onStop`). -/
inductive Event where
  | onStart
  | onStartFailure (r : FailureReason)
  | onStop
  deriving DecidableEq, Repr

/-- The mutable fields of `WifiHalService` relevant to the lifecycle machine:
the state, the two pending-completion flags, and the registered callbacks
(observer handles as natural numbers). -/
structure Service where
  state : State
  awaiting_hal_cleanup_command : Bool
  awaiting_hal_event_loop_termination : Bool
  callbacks : List Nat
  deriving DecidableEq, Repr

/-- A broadcast: `for (auto& callback : callbacks_) callback->onX(...)` —
one invocation `(handle, event)` per registered callback, in container
iteration order. -/
def broadcast (l : List Nat) (ev : Event) : List (Nat × Event) :=
  l.map (fun c => (c, ev))

/-- Modelled from the spec: the `callbacks_` container is declared in
`wifi_hal_service.h`, which is not among the given sources; the spec describes
the observer set as "a collection of registered callback handles, unique per
identity, insertion-ordered", so insertion appends a handle not already
present and keeps an already-present handle where it is. -/
def insertCallback (l : List Nat) (c : Nat) : List Nat :=
  if c ∈ l then l else l ++ [c]

/-- `WifiHalService::registerEventCallback`: `callbacks_.insert(callback)`. -/
def registerEventCallback (s : Service) (c : Nat) : Service :=
  { s with callbacks := insertCallback s.callbacks c }

/-- `WifiHalService::isStarted`: `state_ != State::STOPPED`. -/
def isStarted (s : Service) : Bool :=
  s.state != State.STOPPED

/-- Result of a `start()` call: the successor service, the notifications
delivered (in order), and which side effects were issued: whether the engine
initialization call `wifi_initialize` was made and whether the worker thread
was spawned. -/
structure StartResult where
  service : Service
  events : List (Nat × Event)
  wifiInitCalled : Bool
  threadSpawned : Bool
  deriving DecidableEq, Repr

/-- `WifiHalService::start`. `st` is the status the engine's initialization
call would return, a parameter of the model; on the STARTED and STOPPING
branches that call is never reached. -/
def start (s : Service) (st : Int) : StartResult :=
  if s.state = State.STARTED then
    ⟨s, broadcast s.callbacks Event.onStart, false, false⟩
  else if s.state = State.STOPPING then
    ⟨s, broadcast s.callbacks (Event.onStartFailure
        (CreateFailureReason CommandFailureReason.NOT_AVAILABLE "HAL is stopping")),
      false, false⟩
  else if st ≠ WIFI_SUCCESS then
    ⟨s, broadcast s.callbacks (Event.onStartFailure
        (CreateFailureReasonLegacyError st "Failed to initialize HAL")),
      true, false⟩
  else
    ⟨{ s with state := State.STARTED }, broadcast s.callbacks Event.onStart,
      true, true⟩

/-- `WifiHalService::FinishHalCleanup`: when neither completion is pending,
transition to STOPPED and broadcast `onStop`; otherwise do nothing. -/
def FinishHalCleanup (s : Service) : Service × List (Nat × Event) :=
  if !s.awaiting_hal_cleanup_command && !s.awaiting_hal_event_loop_termination then
    ({ s with state := State.STOPPED }, broadcast s.callbacks Event.onStop)
  else
    (s, [])

/-- The prefix of `stop()`'s STARTED branch up to and including issuing the
synchronous `wifi_cleanup` call: set both pending flags, enter STOPPING. -/
def stopEnter (s : Service) : Service :=
  { s with
      awaiting_hal_cleanup_command := true,
      awaiting_hal_event_loop_termination := true,
      state := State.STOPPING }

/-- The synchronous `wifi_cleanup` call returning inside `stop()`: clear
`awaiting_hal_cleanup_command_` and run `FinishHalCleanup`. -/
def HalCleanupReturned (s : Service) : Service × List (Nat × Event) :=
  FinishHalCleanup { s with awaiting_hal_cleanup_command := false }

/-- The task `DoHalEventLoop` posts to the looper after the event loop
returns: clear `awaiting_hal_event_loop_termination_` and run
`FinishHalCleanup`. -/
def EventLoopExitTask (s : Service) : Service × List (Nat × Event) :=
  FinishHalCleanup { s with awaiting_hal_event_loop_termination := false }

/-- Result of a `stop()` call: the successor service, the notifications
delivered, and whether the engine cleanup call `wifi_cleanup` was issued. -/
structure StopResult where
  service : Service
  events : List (Nat × Event)
  cleanupCalled : Bool
  deriving DecidableEq, Repr

/-- `WifiHalService::stop`. On the STARTED branch the synchronous cleanup
call returns within the call itself (its return is `HalCleanupReturned`);
the event-loop-exit task runs separately (see `runStopFromStarted` for the
interleavings). -/
def stop (s : Service) : StopResult :=
  if s.state = State.STOPPED then
    ⟨s, broadcast s.callbacks Event.onStop, false⟩
  else if s.state = State.STOPPING then
    ⟨s, [], false⟩
  else
    let r := HalCleanupReturned (stopEnter s)
    ⟨r.1, r.2, true⟩

/-- What `DoHalEventLoop` does when `wifi_event_loop` returns: `LOG(FATAL)`
(process abort) when the state is not STOPPING, otherwise detach the thread
and post the completion task. -/
inductive LoopExitOutcome where
  | fatalAbort
  | postCompletionTask
  deriving DecidableEq, Repr

/-- The tail of `WifiHalService::DoHalEventLoop`, entered when the engine's
event loop call returns. -/
def DoHalEventLoopExit (s : Service) : LoopExitOutcome :=
  if s.state ≠ State.STOPPING then
    LoopExitOutcome.fatalAbort
  else
    LoopExitOutcome.postCompletionTask

/-- The two possible orders of the two completion signals after `stop()`
enters STOPPING: the cleanup call returns before the event-loop-exit task
runs, or the task runs before the cleanup call returns. -/
inductive Interleaving where
  | cleanupReturnFirst
  | eventLoopTaskFirst
  deriving DecidableEq, Repr

/-- A run of `stop()` from STARTED with both completions delivered in the
given order: final service state, events emitted by the first completion,
events emitted by the second. -/
structure StopRun where
  final : Service
  firstEvents : List (Nat × Event)
  secondEvents : List (Nat × Event)
  deriving DecidableEq, Repr

/-- Execute `stop()`'s STARTED branch with both completion signals, in the
order chosen by the interleaving. -/
def runStopFromStarted (s : Service) : Interleaving → StopRun
  | Interleaving.cleanupReturnFirst =>
      let r1 := HalCleanupReturned (stopEnter s)
      let r2 := EventLoopExitTask r1.1
      ⟨r2.1, r1.2, r2.2⟩
  | Interleaving.eventLoopTaskFirst =>
      let r1 := EventLoopExitTask (stopEnter s)
      let r2 := HalCleanupReturned r1.1
      ⟨r2.1, r1.2, r2.2⟩

/-- The flag/state invariant: both pending flags are false whenever the state
is not STOPPING. -/
def Inv (s : Service) : Prop :=
  s.state ≠ State.STOPPING →
    s.awaiting_hal_cleanup_command = false ∧
    s.awaiting_hal_event_loop_termination = false

end WifiHal

namespace InterfaceUtils

/-- `IFF_UP` from `linux/if.h`. -/
def IFF_UP : Nat := 1

/-- Environment of one `set_iface_up` call: whether the `socket` call
succeeds, whether the interface name fits in `ifr_name` (the `strlcpy`
check), the result of the `SIOCGIFFLAGS` ioctl (`none` on failure, otherwise
the current 16-bit flags word), and whether the `SIOCSIFFLAGS` ioctl
succeeds when issued. -/
structure IfaceEnv where
  socketOk : Bool
  nameFits : Bool
  getFlags : Option Nat
  setFlagsOk : Bool
  deriving DecidableEq, Repr

/-- Result of one `set_iface_up` call: the boolean return value, whether the
`SIOCSIFFLAGS` ioctl was issued, and the flags word written by it when it
was (`none` when it was not issued). -/
structure IfaceResult where
  success : Bool
  setFlagsIssued : Bool
  writtenFlags : Option Nat
  deriving DecidableEq, Repr

/-- `set_iface_up` from `interface_utils.cpp`. `ifr_flags` is a 16-bit word,
so `& ~IFF_UP` is modelled as masking with `0xFFFE`. -/
def set_iface_up (env : IfaceEnv) (request_up : Bool) : IfaceResult :=
  if !env.socketOk then
    ⟨false, false, none⟩
  else if !env.nameFits then
    ⟨false, false, none⟩
  else
    match env.getFlags with
    | none => ⟨false, false, none⟩
    | some fl =>
      let currently_up : Bool := fl &&& IFF_UP != 0
      if currently_up = request_up then
        ⟨true, false, none⟩
      else
        let fl' := if request_up then fl ||| IFF_UP else fl &&& 0xFFFE
        if env.setFlagsOk then
          ⟨true, true, some fl'⟩
        else
          ⟨false, true, some fl'⟩

end InterfaceUtils

namespace WifiHal

/-- Claim C1: for a run that reaches STARTED and then calls `stop()`, under
both interleavings of the two completion signals the first completion
broadcasts nothing, the second broadcasts `onStop` to every callback, the
final state is STOPPED, and `FinishHalCleanup` broadcasts nothing whenever
either pending flag is still set. -/
theorem stop_exactly_one_onStop (s t : Service) (i : Interleaving)
    (h : s.state = State.STARTED)
    (ht : t.awaiting_hal_cleanup_command = true ∨
      t.awaiting_hal_event_loop_termination = true) :
    (runStopFromStarted s i).firstEvents = [] ∧
    (runStopFromStarted s i).secondEvents = broadcast s.callbacks Event.onStop ∧
    (runStopFromStarted s i).final.state = State.STOPPED ∧
    (FinishHalCleanup t).2 = [] := by
  refine ⟨?_, ?_, ?_, ?_⟩
  · cases i <;>
      simp [runStopFromStarted, stopEnter, HalCleanupReturned,
        EventLoopExitTask, FinishHalCleanup]
  · cases i <;>
      simp [runStopFromStarted, stopEnter, HalCleanupReturned,
        EventLoopExitTask, FinishHalCleanup]
  · cases i <;>
      simp [runStopFromStarted, stopEnter, HalCleanupReturned,
        EventLoopExitTask, FinishHalCleanup]
  · rcases ht with h1 | h1 <;> simp [FinishHalCleanup, h1]

/-- Claim C1 witness at a concrete STARTED service with two callbacks. -/
theorem stop_exactly_one_onStop_witness :
    (runStopFromStarted ⟨State.STARTED, false, false, [0, 1]⟩
        Interleaving.eventLoopTaskFirst).firstEvents = [] ∧
    (runStopFromStarted ⟨State.STARTED, false, false, [0, 1]⟩
        Interleaving.eventLoopTaskFirst).secondEvents =
      broadcast [0, 1] Event.onStop ∧
    (runStopFromStarted ⟨State.STARTED, false, false, [0, 1]⟩
        Interleaving.eventLoopTaskFirst).final.state = State.STOPPED ∧
    (FinishHalCleanup ⟨State.STOPPING, true, true, [0, 1]⟩).2 = [] :=
  stop_exactly_one_onStop ⟨State.STARTED, false, false, [0, 1]⟩
    ⟨State.STOPPING, true, true, [0, 1]⟩ Interleaving.eventLoopTaskFirst rfl
    (Or.inl rfl)

/-- Claim C2: the flag/state invariant `Inv` (both pending flags false
whenever the state is not STOPPING) is preserved by `start`, `stop`, the
worker-exit completion task and `FinishHalCleanup`; and `FinishHalCleanup`
transitions STOPPING to STOPPED only when both flags are already false. -/
theorem inv_preserved_by_all_ops (s : Service) (st : Int) (h : Inv s) :
    Inv (start s st).service ∧
    Inv (stop s).service ∧
    Inv (EventLoopExitTask s).1 ∧
    Inv (FinishHalCleanup s).1 ∧
    (s.state = State.STOPPING → (FinishHalCleanup s).1.state = State.STOPPED →
      s.awaiting_hal_cleanup_command = false ∧
      s.awaiting_hal_event_loop_termination = false) := by
  obtain ⟨sst, a, b, cbs⟩ := s
  cases sst <;> cases a <;> cases b <;>
    simp_all [Inv, start, stop, stopEnter, HalCleanupReturned,
      EventLoopExitTask, FinishHalCleanup, broadcast, WIFI_SUCCESS] <;>
    split <;> simp_all

/-- Claim C2 witness at a concrete STOPPING service with one flag set. -/
theorem inv_preserved_by_all_ops_witness :
    Inv (start ⟨State.STOPPING, true, false, [0]⟩ (-1)).service ∧
    Inv (stop ⟨State.STOPPING, true, false, [0]⟩).service ∧
    Inv (EventLoopExitTask ⟨State.STOPPING, true, false, [0]⟩).1 ∧
    Inv (FinishHalCleanup ⟨State.STOPPING, true, false, [0]⟩).1 ∧
    ((⟨State.STOPPING, true, false, [0]⟩ : Service).state = State.STOPPING →
      (FinishHalCleanup ⟨State.STOPPING, true, false, [0]⟩).1.state =
        State.STOPPED →
      (⟨State.STOPPING, true, false, [0]⟩ : Service).awaiting_hal_cleanup_command
        = false ∧
      (⟨State.STOPPING, true, false,
        [0]⟩ : Service).awaiting_hal_event_loop_termination = false) :=
  inv_preserved_by_all_ops ⟨State.STOPPING, true, false, [0]⟩ (-1)
    (fun hne => absurd rfl hne)

/-- Claim C3: the failure-reason translator is a pure function equal, on
every engine error code and description, to the specification's translation
table `failureTableSpec`. -/
theorem translator_matches_spec_table :
    ∀ (error : Int) (desc : String),
      CreateFailureReasonLegacyError error desc = failureTableSpec error desc :=
  fun _ _ => rfl

/-- Claim C4: when the event loop returns with the state not STOPPING the
outcome is a fatal abort; when the state is STOPPING the completion task is
posted instead, so under that precondition the fatal branch is unreachable. -/
theorem event_loop_exit_fatal_iff_not_stopping (s : Service) :
    (s.state ≠ State.STOPPING →
      DoHalEventLoopExit s = LoopExitOutcome.fatalAbort) ∧
    (s.state = State.STOPPING →
      DoHalEventLoopExit s = LoopExitOutcome.postCompletionTask) := by
  constructor <;> intro h <;> simp [DoHalEventLoopExit, h]

/-- Claim C4 witness: a STARTED service aborts, a STOPPING one posts. -/
theorem event_loop_exit_fatal_iff_not_stopping_witness :
    DoHalEventLoopExit ⟨State.STARTED, false, false, []⟩ =
      LoopExitOutcome.fatalAbort ∧
    DoHalEventLoopExit ⟨State.STOPPING, true, true, []⟩ =
      LoopExitOutcome.postCompletionTask :=
  ⟨(event_loop_exit_fatal_iff_not_stopping
      ⟨State.STARTED, false, false, []⟩).1 (by decide),
   (event_loop_exit_fatal_iff_not_stopping
      ⟨State.STOPPING, true, true, []⟩).2 rfl⟩

/-- Claim C5: registration keeps the callback handles unique, and a
broadcast invokes the registered observers in registration order, each
exactly once. -/
theorem broadcast_once_per_observer_in_order (s : Service) (c x : Nat)
    (ev : Event) (h : s.callbacks.Nodup) (hx : x ∈ s.callbacks) :
    (registerEventCallback s c).callbacks.Nodup ∧
    (broadcast s.callbacks ev).map Prod.fst = s.callbacks ∧
    Multiset.count (x, ev) (↑(broadcast s.callbacks ev) : Multiset (Nat × Event))
      = 1 := by
  have hinj : Function.Injective (fun c : Nat => (c, ev)) := by
    intro a b hab
    simpa using congrArg Prod.fst hab
  refine ⟨?_, ?_, ?_⟩
  · simp only [registerEventCallback, insertCallback]
    split
    · exact h
    · next hc => simp [List.nodup_append, h, hc]
  · rw [broadcast, List.map_map]
    show List.map id s.callbacks = s.callbacks
    exact List.map_id s.callbacks
  · show (Multiset.map (fun c : Nat => (c, ev)) ↑s.callbacks).count
      ((fun c : Nat => (c, ev)) x) = 1
    rw [Multiset.count_map_eq_count' (fun c : Nat => (c, ev)) _ hinj x]
    exact Multiset.count_eq_one_of_mem (Multiset.coe_nodup.2 h)
      (Multiset.mem_coe.2 hx)

/-- Claim C5 witness at a concrete two-callback service. -/
theorem broadcast_once_per_observer_in_order_witness :
    (registerEventCallback ⟨State.STOPPED, false, false, [3, 5]⟩ 5).callbacks.Nodup ∧
    (broadcast [3, 5] Event.onStart).map Prod.fst = [3, 5] ∧
    Multiset.count (5, Event.onStart)
      (↑(broadcast [3, 5] Event.onStart) : Multiset (Nat × Event)) = 1 :=
  broadcast_once_per_observer_in_order ⟨State.STOPPED, false, false, [3, 5]⟩
    5 5 Event.onStart (by decide) (by decide)

/-- Claim C6: `start()` while STOPPING leaves the service (state and flags)
unchanged, broadcasts `onStartFailure` with category NOT_AVAILABLE to each
registered observer exactly once, does not call the engine's initialization,
and spawns no worker thread. -/
theorem start_rejected_while_stopping (s : Service) (st : Int) (x : Nat)
    (h : s.state = State.STOPPING) (hnd : s.callbacks.Nodup)
    (hx : x ∈ s.callbacks) :
    (start s st).service = s ∧
    (start s st).events = broadcast s.callbacks
      (Event.onStartFailure
        ⟨CommandFailureReason.NOT_AVAILABLE, "HAL is stopping"⟩) ∧
    Multiset.count
      (x, Event.onStartFailure
        ⟨CommandFailureReason.NOT_AVAILABLE, "HAL is stopping"⟩)
      (↑(start s st).events : Multiset (Nat × Event)) = 1 ∧
    (start s st).wifiInitCalled = false ∧
    (start s st).threadSpawned = false := by
  have hev : Event.onStartFailure
      ⟨CommandFailureReason.NOT_AVAILABLE, "HAL is stopping"⟩ =
      Event.onStartFailure
        (CreateFailureReason CommandFailureReason.NOT_AVAILABLE
          "HAL is stopping") := rfl
  have hr : start s st = ⟨s, broadcast s.callbacks (Event.onStartFailure
      (CreateFailureReason CommandFailureReason.NOT_AVAILABLE
        "HAL is stopping")), false, false⟩ := by
    simp [start, h]
  have hinj : Function.Injective (fun c : Nat =>
      (c, Event.onStartFailure
        (CreateFailureReason CommandFailureReason.NOT_AVAILABLE
          "HAL is stopping"))) := by
    intro a b hab
    simpa using congrArg Prod.fst hab
  refine ⟨by rw [hr], by rw [hr, hev], ?_, by rw [hr], by rw [hr]⟩
  rw [hr, hev]
  show (Multiset.map (fun c : Nat =>
      (c, Event.onStartFailure
        (CreateFailureReason CommandFailureReason.NOT_AVAILABLE
          "HAL is stopping"))) ↑s.callbacks).count
    ((fun c : Nat =>
      (c, Event.onStartFailure
        (CreateFailureReason CommandFailureReason.NOT_AVAILABLE
          "HAL is stopping"))) x) = 1
  rw [Multiset.count_map_eq_count' _ _ hinj x]
  exact Multiset.count_eq_one_of_mem (Multiset.coe_nodup.2 hnd)
    (Multiset.mem_coe.2 hx)

/-- Claim C6 witness at a concrete STOPPING service with one callback. -/
theorem start_rejected_while_stopping_witness :
    (start ⟨State.STOPPING, true, true, [2]⟩ 0).service =
      ⟨State.STOPPING, true, true, [2]⟩ ∧
    (start ⟨State.STOPPING, true, true, [2]⟩ 0).events = broadcast [2]
      (Event.onStartFailure
        ⟨CommandFailureReason.NOT_AVAILABLE, "HAL is stopping"⟩) ∧
    Multiset.count
      (2, Event.onStartFailure
        ⟨CommandFailureReason.NOT_AVAILABLE, "HAL is stopping"⟩)
      (↑(start ⟨State.STOPPING, true, true, [2]⟩ 0).events :
        Multiset (Nat × Event)) = 1 ∧
    (start ⟨State.STOPPING, true, true, [2]⟩ 0).wifiInitCalled = false ∧
    (start ⟨State.STOPPING, true, true, [2]⟩ 0).threadSpawned = false :=
  start_rejected_while_stopping ⟨State.STOPPING, true, true, [2]⟩ 0 2 rfl
    (by decide) (by decide)

/-- Claim C7: `start()` from STOPPED with a failing engine initialization
spawns no thread, leaves the service unchanged (state STOPPED, flags false),
and broadcasts `onStartFailure` with the translated engine error to every
registered observer. -/
theorem start_init_failure_stays_stopped (s : Service) (st : Int)
    (h : s.state = State.STOPPED) (hf : st ≠ WIFI_SUCCESS)
    (ha : s.awaiting_hal_cleanup_command = false)
    (hb : s.awaiting_hal_event_loop_termination = false) :
    (start s st).service = s ∧
    (start s st).service.state = State.STOPPED ∧
    (start s st).service.awaiting_hal_cleanup_command = false ∧
    (start s st).service.awaiting_hal_event_loop_termination = false ∧
    (start s st).threadSpawned = false ∧
    (start s st).wifiInitCalled = true ∧
    (start s st).events = broadcast s.callbacks
      (Event.onStartFailure
        (CreateFailureReasonLegacyError st "Failed to initialize HAL")) := by
  have hr : start s st = ⟨s, broadcast s.callbacks (Event.onStartFailure
      (CreateFailureReasonLegacyError st "Failed to initialize HAL")),
      true, false⟩ := by
    simp [start, h, hf]
  rw [hr]
  exact ⟨rfl, h, ha, hb, rfl, rfl, rfl⟩

/-- Claim C7 witness: engine initialization failing with NOT_SUPPORTED. -/
theorem start_init_failure_stays_stopped_witness :
    (start ⟨State.STOPPED, false, false, [2]⟩ (-3)).service =
      ⟨State.STOPPED, false, false, [2]⟩ ∧
    (start ⟨State.STOPPED, false, false, [2]⟩ (-3)).service.state =
      State.STOPPED ∧
    (start ⟨State.STOPPED, false, false,
      [2]⟩ (-3)).service.awaiting_hal_cleanup_command = false ∧
    (start ⟨State.STOPPED, false, false,
      [2]⟩ (-3)).service.awaiting_hal_event_loop_termination = false ∧
    (start ⟨State.STOPPED, false, false, [2]⟩ (-3)).threadSpawned = false ∧
    (start ⟨State.STOPPED, false, false, [2]⟩ (-3)).wifiInitCalled = true ∧
    (start ⟨State.STOPPED, false, false, [2]⟩ (-3)).events = broadcast [2]
      (Event.onStartFailure
        (CreateFailureReasonLegacyError (-3) "Failed to initialize HAL")) :=
  start_init_failure_stays_stopped ⟨State.STOPPED, false, false, [2]⟩ (-3)
    rfl (by decide) rfl rfl

/-- Claim C8: `stop()` while STOPPING is a no-op: the service is unchanged,
nothing is broadcast, and no cleanup call is issued. -/
theorem stop_noop_while_stopping (s : Service) (h : s.state = State.STOPPING) :
    stop s = ⟨s, [], false⟩ := by
  simp [stop, h]

/-- Claim C8 witness at a concrete STOPPING service. -/
theorem stop_noop_while_stopping_witness :
    stop ⟨State.STOPPING, true, true, [0, 1]⟩ =
      ⟨⟨State.STOPPING, true, true, [0, 1]⟩, [], false⟩ :=
  stop_noop_while_stopping ⟨State.STOPPING, true, true, [0, 1]⟩ rfl

/-- Claim C9: `stop()` while STOPPED leaves the service unchanged, issues no
engine cleanup call, and broadcasts `onStop` to each registered observer
exactly once. -/
theorem stop_when_stopped_broadcasts_onStop (s : Service) (x : Nat)
    (h : s.state = State.STOPPED) (hnd : s.callbacks.Nodup)
    (hx : x ∈ s.callbacks) :
    (stop s).service = s ∧
    (stop s).events = broadcast s.callbacks Event.onStop ∧
    Multiset.count (x, Event.onStop)
      (↑(stop s).events : Multiset (Nat × Event)) = 1 ∧
    (stop s).cleanupCalled = false := by
  have hr : stop s = ⟨s, broadcast s.callbacks Event.onStop, false⟩ := by
    simp [stop, h]
  have hinj : Function.Injective (fun c : Nat => (c, Event.onStop)) := by
    intro a b hab
    simpa using congrArg Prod.fst hab
  refine ⟨by rw [hr], by rw [hr], ?_, by rw [hr]⟩
  rw [hr]
  show (Multiset.map (fun c : Nat => (c, Event.onStop)) ↑s.callbacks).count
    ((fun c : Nat => (c, Event.onStop)) x) = 1
  rw [Multiset.count_map_eq_count' _ _ hinj x]
  exact Multiset.count_eq_one_of_mem (Multiset.coe_nodup.2 hnd)
    (Multiset.mem_coe.2 hx)

/-- Claim C9 witness at a concrete STOPPED service with one callback. -/
theorem stop_when_stopped_broadcasts_onStop_witness :
    (stop ⟨State.STOPPED, false, false, [5]⟩).service =
      ⟨State.STOPPED, false, false, [5]⟩ ∧
    (stop ⟨State.STOPPED, false, false, [5]⟩).events =
      broadcast [5] Event.onStop ∧
    Multiset.count (5, Event.onStop)
      (↑(stop ⟨State.STOPPED, false, false, [5]⟩).events :
        Multiset (Nat × Event)) = 1 ∧
    (stop ⟨State.STOPPED, false, false, [5]⟩).cleanupCalled = false :=
  stop_when_stopped_broadcasts_onStop ⟨State.STOPPED, false, false, [5]⟩ 5
    rfl (by decide) (by decide)

end WifiHal

namespace InterfaceUtils

/-- Claim C10: when the socket and the get-flags ioctl succeed and the
interface's IFF_UP bit already matches the request, `set_iface_up` returns
true without issuing the set-flags ioctl and without writing any flags. -/
theorem set_iface_up_noop_when_status_matches (env : IfaceEnv) (fl : Nat)
    (request_up : Bool) (hs : env.socketOk = true) (hn : env.nameFits = true)
    (hg : env.getFlags = some fl)
    (hu : (fl &&& IFF_UP != 0) = request_up) :
    set_iface_up env request_up = ⟨true, false, none⟩ := by
  obtain ⟨so, nf, gf, sf⟩ := env
  simp only at hs hn hg
  subst hs hn hg
  simp [set_iface_up, hu]

/-- Claim C10 witness: an interface already up, requested up. -/
theorem set_iface_up_noop_when_status_matches_witness :
    set_iface_up ⟨true, true, some 4163, true⟩ true = ⟨true, false, none⟩ :=
  set_iface_up_noop_when_status_matches ⟨true, true, some 4163, true⟩ 4163
    true rfl rfl rfl (by decide)

end InterfaceUtils
